import Mathlib

/-!
Verification development for the weekly rostering engine of this repository.

The engine (rostering/roster_v2.py, with the earlier variants rostering/mod.py
and rostering/fileOne.py) builds a CP-SAT boolean model: one decision variable
per eligible (staff, day, shift) triple, hard constraints (one shift per person
per day, weekly caps, a scaled-integer cost ceiling), and soft constraints
realised as bounded slack variables tied to the decision variables by linear
equalities.  We embed the model construction shallowly: the satisfaction
predicate of the emitted constraint set is a computable `Bool`-valued function
of the instance (the list of staff availability rows), a valuation of the
decision variables, and valuations of the slack variables.  Any solution the
solver returns with status Optimal/Feasible is exactly a valuation making this
predicate true, so properties of "every returned solution" are proved as
consequences of the predicate.

Staff identifiers are assumed unique (one row per staff member), matching the
data model; valuations are keyed by the row itself.

Times are decimal hours in the Python code; we embed every clock time as an
integer number of thousandths of an hour (so 5.5 h = 5500), the same ×1000
scaling the code itself applies to durations and rates via int(h*1000) /
int(r*1000).  For every constant in the catalogs these float truncations are
exact (e.g. 4.75 → 4750, manager rate 30·1.2 → 36000, 30·1.5 → 45000), and
the scaling is order-preserving, so the window-containment comparisons are
embedded faithfully.
-/

inductive Day
| Mon | Tue | Wed | Thu | Fri | Sat | Sun
deriving DecidableEq, Repr

inductive Tier
| Red | Yellow | Green
deriving DecidableEq, Repr

/-- The shift catalog of roster_v2.py: four crew shifts, the flexible shift,
and the two manager shifts.  mod.py / fileOne.py use the same names minus
`ShiftD`. -/
inductive Shift
| ShiftA | ShiftB | ShiftC | ShiftD | Flex | MornManager | AftManager
deriving DecidableEq, Repr

/-- Role categories appearing in staffing_rules (only FOH and BOH occur). -/
inductive ReqRole
| FOH | BOH
deriving DecidableEq, Repr

open Day Tier Shift ReqRole

def days : List Day := [Mon, Tue, Wed, Thu, Fri, Sat, Sun]

def allShifts : List Shift :=
  [ShiftA, ShiftB, ShiftC, ShiftD, Flex, MornManager, AftManager]

/-- Crew shifts of roster_v2.py, plus the flexible shift — the shifts whose
hours count toward the 38-hour crew cap. -/
def crewShifts : List Shift := [ShiftA, ShiftB, ShiftC, ShiftD, Flex]

def managerShiftList : List Shift := [MornManager, AftManager]

/-- Start time of each shift in roster_v2.py, in thousandths of an hour:
ShiftA 5:30 (5.5 h), ShiftB 7:00, ShiftC 16:45 (16.75 h), ShiftD 14:00,
Flex 8:00, Morn_Manager 5:30, Aft_Manager 13:30. -/
def shiftStart : Shift → ℤ
| ShiftA => 5500
| ShiftB => 7000
| ShiftC => 16750
| ShiftD => 14000
| Flex => 8000
| MornManager => 5500
| AftManager => 13500

/-- End time of each shift in roster_v2.py, in thousandths of an hour. -/
def shiftEnd : Shift → ℤ
| ShiftA => 13500
| ShiftB => 14000
| ShiftC => 21500
| ShiftD => 21500
| Flex => 13000
| MornManager => 13500
| AftManager => 21500

/-- Shift duration scaled by 1000, as computed by int(hours*1000) in
roster_v2.py (8, 7, 4.75, 7.5, 5, 8, 8 hours). -/
def hoursScaled : Shift → ℕ
| ShiftA => 8000
| ShiftB => 7000
| ShiftC => 4750
| ShiftD => 7500
| Flex => 5000
| MornManager => 8000
| AftManager => 8000

/-- day_demand table (identical in all three variants). -/
def dayDemand : Day → Tier
| Mon => Red
| Tue => Yellow
| Wed => Red
| Thu => Green
| Fri => Red
| Sat => Yellow
| Sun => Green

/-- Per-day minimum staffing by tier from roster_v2.py (14 red, 12 yellow,
10 green; the MIN_STAFF_PER_DAY fallback branch is unreachable because every
day has one of the three tiers). -/
def minStaffReq : Tier → ℕ
| Red => 14
| Yellow => 12
| Green => 10

/-- staffing_rules of roster_v2.py: per tier, per shift, the required
headcount by role category.  Only FOH/BOH entries occur, so the Manager
candidate branch of the ShiftA loop never fires. -/
def staffingReqs : Tier → List (Shift × List (ReqRole × ℕ))
| Red =>
  [(ShiftA, [(FOH, 1)]),
   (ShiftB, [(FOH, 2), (BOH, 2)]),
   (ShiftC, [(FOH, 2), (BOH, 1)]),
   (ShiftD, [(FOH, 1)])]
| Yellow =>
  [(ShiftA, [(FOH, 1)]),
   (ShiftB, [(FOH, 2), (BOH, 1)]),
   (ShiftC, [(FOH, 2), (BOH, 1)]),
   (ShiftD, [(FOH, 1), (BOH, 1)])]
| Green =>
  [(ShiftA, [(FOH, 1)]),
   (ShiftB, [(FOH, 2), (BOH, 1)]),
   (ShiftC, [(FOH, 2), (BOH, 1)]),
   (ShiftD, [(FOH, 1), (BOH, 1)])]

/-- crew_pay_by_age.get(age, 18) scaled by 1000 (all the table's rates are
exact multiples of 0.5, so int(rate*1000) is exact). -/
def crewPayScaled (age : ℤ) : ℕ :=
  if age = 16 then 12000
  else if age = 17 then 12500
  else if age = 18 then 13000
  else if age = 19 then 13500
  else if age = 20 then 14000
  else if age = 21 then 15000
  else if age = 22 then 16000
  else if age = 23 then 17000
  else if age = 24 then 18000
  else if age = 25 then 19000
  else 18000

/-- Manager rate scaled by 1000 for a given day:
manager_pay (30) times manager_weekend_multiplier (Sat 1.2, Sun 1.5,
default 1), then int(rate*1000) — 36000 and 45000 are the exact values the
Python float computation produces. -/
def managerRateScaled : Day → ℕ
| Sat => 36000
| Sun => 45000
| _ => 30000

/-- One row of the availability sheet after ingestion: staff identifier,
role tag, age, and an optional availability window (start, end in decimal
hours) per day. -/
structure StaffRow where
  name : String
  role : String
  age : ℤ
  avail : Day → Option (ℤ × ℤ)

/-- Role normalization applied to the sheet before model construction in
roster_v2.py: df['Role'].replace('Manger', 'Manager'). -/
def normalizeRole (r : String) : String :=
  if r = "Manger" then "Manager" else r

def normalizeRows (rows : List StaffRow) : List StaffRow :=
  rows.map fun r => { r with role := normalizeRole r.role }

/-- The role test of the variable-generation branch in roster_v2.py:
role in ['Manager', 'Manger', 'RM'].  (After normalization 'Manger' cannot
occur, but the literal list is kept.) -/
def isManagerRoleV2 (r : String) : Bool :=
  r = "Manager" || r = "Manger" || r = "RM"

/-- Eligibility / variable generation of roster_v2.py: a decision variable
keyed (staff, day, shift) exists iff the staff has an availability window
that day, the window fully contains the shift (start ≤ shift start and
end ≥ shift end), and the role gate passes: manager roles get exactly the
manager shifts, every other role gets the four crew shifts, and role 'Both'
additionally gets the flexible shift (with no demand-tier condition). -/
def varExistsV2 (r : StaffRow) (d : Day) (s : Shift) : Bool :=
  match r.avail d with
  | none => false
  | some (a, b) =>
    if isManagerRoleV2 r.role then
      match s with
      | MornManager | AftManager => decide (a ≤ shiftStart s ∧ shiftEnd s ≤ b)
      | _ => false
    else
      match s with
      | ShiftA | ShiftB | ShiftC | ShiftD =>
        decide (a ≤ shiftStart s ∧ shiftEnd s ≤ b)
      | Flex => r.role = "Both" && decide (a ≤ 8000 ∧ 13000 ≤ b)
      | _ => false

/-! ## The roster_v2.py constraint system

A valuation `σ` gives a boolean to every (row, day, shift) key; only keys
whose decision variable exists matter, so every sum goes through
`assignedV2`, which conjoins existence.  Slack valuations are passed as
explicit functions: `us` (understaffed per (day, shift, role-category)),
`ms` (min_staff_short per day), `u` (Uncovered per (day, manager shift)). -/

def Assign : Type := StaffRow → Day → Shift → Bool

def b2n (b : Bool) : ℕ := if b then 1 else 0

/-- A decision variable that exists and is set to true in the valuation. -/
def assignedV2 (σ : Assign) (r : StaffRow) (d : Day) (s : Shift) : Bool :=
  varExistsV2 r d s && σ r d s

/-- Number of shifts a staff row works on one day (`vars_today` sum). -/
def dayCountV2 (σ : Assign) (r : StaffRow) (d : Day) : ℕ :=
  (allShifts.map fun s => b2n (assignedV2 σ r d s)).sum

/-- get_candidates(day, shift, role_type): the rows owning a variable for
(day, shift) whose Role is FOH/Both (for FOH) resp. BOH/Both (for BOH). -/
def reqRoleMatch : ReqRole → String → Bool
| FOH, role => role = "FOH" || role = "Both"
| BOH, role => role = "BOH" || role = "Both"

/-- Whether the candidate variable list for a staffing requirement is
nonempty (the `if candidates:` guard). -/
def candExistsV2 (rows : List StaffRow) (d : Day) (s : Shift) (rt : ReqRole) : Bool :=
  rows.any fun r => varExistsV2 r d s && reqRoleMatch rt r.role

/-- sum(candidates) for a staffing requirement under a valuation. -/
def candSumV2 (rows : List StaffRow) (σ : Assign) (d : Day) (s : Shift)
    (rt : ReqRole) : ℕ :=
  (rows.map fun r => b2n (assignedV2 σ r d s && reqRoleMatch rt r.role)).sum

/-- sum(staff_today): all assigned variables on a day, over every shift. -/
def dayTotalV2 (rows : List StaffRow) (σ : Assign) (d : Day) : ℕ :=
  (rows.map fun r => dayCountV2 σ r d).sum

/-- Number of assigned variables of one row over the whole week
(days_assigned of the RM constraint counts every variable of the row). -/
def weekCountV2 (σ : Assign) (r : StaffRow) : ℕ :=
  (days.map fun d => dayCountV2 σ r d).sum

/-- Scaled weekly crew hours of one row: variables for the four crew shifts
and Flex contribute int(h*1000); manager-shift keys are skipped
(`continue`). -/
def crewHoursScaledV2 (σ : Assign) (r : StaffRow) : ℕ :=
  (days.map fun d =>
    (crewShifts.map fun s => b2n (assignedV2 σ r d s) * hoursScaled s).sum).sum

/-- Manager-shift candidate variables for (day, m_shift) exist
(the `if vars_m:` guard of the coverage constraint). -/
def mgrVarExistsV2 (rows : List StaffRow) (d : Day) (m : Shift) : Bool :=
  rows.any fun r => varExistsV2 r d m

/-- sum(vars_m) of the manager coverage constraint. -/
def mgrSumV2 (rows : List StaffRow) (σ : Assign) (d : Day) (m : Shift) : ℕ :=
  (rows.map fun r => b2n (assignedV2 σ r d m)).sum

/-- Assigned manager shifts of one row over the week. -/
def mgrWeekCountV2 (σ : Assign) (r : StaffRow) : ℕ :=
  (days.map fun d =>
    (managerShiftList.map fun m => b2n (assignedV2 σ r d m)).sum).sum

/-- Scaled effective rate of a variable in the cost constraint:
manager-shift keys use manager_pay × weekend multiplier (already scaled),
all other keys use the age-band crew rate with fallback 18. -/
def rateScaledV2 (r : StaffRow) (d : Day) (s : Shift) : ℕ :=
  match s with
  | MornManager | AftManager => managerRateScaled d
  | _ => crewPayScaled r.age

/-- sum(cost_terms): over every variable, value × int(hours*1000) ×
int(rate*1000). -/
def costScaledV2 (rows : List StaffRow) (σ : Assign) : ℕ :=
  (rows.map fun r =>
    (days.map fun d =>
      (allShifts.map fun s =>
        b2n (assignedV2 σ r d s) * hoursScaled s * rateScaledV2 r d s).sum).sum).sum

/-- Hard constraint 1 of roster_v2.py: one shift per person per day.
(The code adds the constraint only when the row has variables that day;
with no variables the sum is 0, so the guard is vacuous.) -/
def oneShiftOKV2 (rows : List StaffRow) (σ : Assign) : Bool :=
  rows.all fun r => days.all fun d => decide (dayCountV2 σ r d ≤ 1)

/-- Soft staffing requirements: for every (day, shift, role-category)
requirement with a nonempty candidate list, an understaffed slack with
domain [0, count] and the equality count − sum(candidates) == slack.
(The ShiftA Manager branch never fires since staffing_rules has no Manager
entries, and the `'ShiftC' in required` guard is always true.) -/
def understaffedOKV2 (rows : List StaffRow) (σ : Assign)
    (us : Day → Shift → ReqRole → ℕ) : Bool :=
  days.all fun d =>
    (staffingReqs (dayDemand d)).all fun p =>
      p.2.all fun q =>
        !(candExistsV2 rows d p.1 q.1) ||
          (decide (us d p.1 q.1 ≤ q.2) &&
           decide ((q.2 : ℤ) - candSumV2 rows σ d p.1 q.1 = us d p.1 q.1))

/-- Soft minimum staff per day: slack with domain [0, tier minimum] and
the equality min_staff_req − sum(staff_today) == slack, added for every
day unconditionally. -/
def minStaffOKV2 (rows : List StaffRow) (σ : Assign) (ms : Day → ℕ) : Bool :=
  days.all fun d =>
    decide (ms d ≤ minStaffReq (dayDemand d)) &&
    decide ((minStaffReq (dayDemand d) : ℤ) - dayTotalV2 rows σ d = ms d)

/-- Hard constraint 3: every RM row has at most 5 assigned variables over
the week. -/
def rmCapOKV2 (rows : List StaffRow) (σ : Assign) : Bool :=
  rows.all fun r => !(r.role = "RM" : Bool) || decide (weekCountV2 σ r ≤ 5)

/-- Hard constraint 4: every row whose role is neither Manager nor RM has
at most MAX_WEEKLY_HOURS × 1000 = 38000 scaled crew hours. -/
def crewHoursOKV2 (rows : List StaffRow) (σ : Assign) : Bool :=
  rows.all fun r =>
    (r.role = "Manager" || r.role = "RM" : Bool) ||
      decide (crewHoursScaledV2 σ r ≤ 38000)

/-- Hard cost constraint: sum(cost_terms) ≤ MAX_WEEKLY_COST × 1,000,000. -/
def costOKV2 (rows : List StaffRow) (σ : Assign) : Bool :=
  decide (costScaledV2 rows σ ≤ 20000 * 1000000)

/-- Soft manager coverage: for each (day, manager shift) an Uncovered
boolean; the equality sum(vars_m) + u == 1 is added only when the candidate
list is nonempty (`if vars_m:`). -/
def mgrCoverOKV2 (rows : List StaffRow) (σ : Assign)
    (u : Day → Shift → Bool) : Bool :=
  days.all fun d =>
    managerShiftList.all fun m =>
      !(mgrVarExistsV2 rows d m) ||
        decide (mgrSumV2 rows σ d m + b2n (u d m) = 1)

/-- The complete constraint set emitted by roster_v2.py.  A solution the
solver returns with status Optimal or Feasible is exactly a valuation of
the decision and slack variables making this predicate true. -/
def satHardV2 (rows : List StaffRow) (σ : Assign)
    (us : Day → Shift → ReqRole → ℕ) (ms : Day → ℕ)
    (u : Day → Shift → Bool) : Bool :=
  oneShiftOKV2 rows σ && understaffedOKV2 rows σ us && minStaffOKV2 rows σ ms &&
  rmCapOKV2 rows σ && crewHoursOKV2 rows σ && costOKV2 rows σ &&
  mgrCoverOKV2 rows σ u

/-! ## The mod.py variant

mod.py builds the same kind of model with a smaller catalog (no ShiftD),
a demand-tier gate on the flexible shift, manager shifts only for role
'Manager' (no RM branch, no 'Manger' normalization), an unconditional
manager-coverage equality, a hard 4-shift weekly manager cap, the same cost
ceiling, and per-staff weekly-hour deviation slacks |total − 70000|
declared on [0, 100000000]. -/

/-- Variable generation of mod.py: crew shifts A/B/C for every role by
containment; Flex gated by role == 'Both' and day_demand in
{Yellow, Green}; manager shifts only for role == 'Manager'. -/
def varExistsMod (r : StaffRow) (d : Day) (s : Shift) : Bool :=
  match r.avail d with
  | none => false
  | some (a, b) =>
    match s with
    | ShiftA | ShiftB | ShiftC => decide (a ≤ shiftStart s ∧ shiftEnd s ≤ b)
    | ShiftD => false
    | Flex =>
      r.role = "Both" &&
        (dayDemand d = Yellow || dayDemand d = Green : Bool) &&
        decide (a ≤ 8000 ∧ 13000 ≤ b)
    | MornManager | AftManager =>
      r.role = "Manager" && decide (a ≤ shiftStart s ∧ shiftEnd s ≤ b)

/-- Scaled shift hours of mod.py (shift_hours, flex_hours,
manager_shift_hours; ShiftD has no entry and no variable ever exists for
it, so its value is irrelevant — we use 0). -/
def hoursScaledMod : Shift → ℕ
| ShiftA => 8000
| ShiftB => 7000
| ShiftC => 4750
| ShiftD => 0
| Flex => 5000
| MornManager => 8000
| AftManager => 8000

def assignedMod (σ : Assign) (r : StaffRow) (d : Day) (s : Shift) : Bool :=
  varExistsMod r d s && σ r d s

def dayCountMod (σ : Assign) (r : StaffRow) (d : Day) : ℕ :=
  (allShifts.map fun s => b2n (assignedMod σ r d s)).sum

def mgrSumMod (rows : List StaffRow) (σ : Assign) (d : Day) (m : Shift) : ℕ :=
  (rows.map fun r => b2n (assignedMod σ r d m)).sum

/-- Assigned manager shifts of one row over the week in mod.py. -/
def mgrWeekCountMod (σ : Assign) (r : StaffRow) : ℕ :=
  (days.map fun d =>
    (managerShiftList.map fun m => b2n (assignedMod σ r d m)).sum).sum

/-- Scaled weekly hours of one row in mod.py: every variable of the row
contributes its shift hours (manager shifts included). -/
def totalHoursScaledMod (σ : Assign) (r : StaffRow) : ℕ :=
  (days.map fun d =>
    (allShifts.map fun s => b2n (assignedMod σ r d s) * hoursScaledMod s).sum).sum

/-- Whether a row owns any decision variable (the `if hours:` guard of the
weekly-hour deviation constraint). -/
def hasVarMod (r : StaffRow) : Bool :=
  days.any fun d => allShifts.any fun s => varExistsMod r d s

def rateScaledMod (r : StaffRow) (d : Day) (s : Shift) : ℕ :=
  match s with
  | MornManager | AftManager => managerRateScaled d
  | _ => crewPayScaled r.age

def costScaledMod (rows : List StaffRow) (σ : Assign) : ℕ :=
  (rows.map fun r =>
    (days.map fun d =>
      (allShifts.map fun s =>
        b2n (assignedMod σ r d s) * hoursScaledMod s * rateScaledMod r d s).sum).sum).sum

def oneShiftOKMod (rows : List StaffRow) (σ : Assign) : Bool :=
  rows.all fun r => days.all fun d => decide (dayCountMod σ r d ≤ 1)

/-- Manager coverage in mod.py: the equality sum(vars_m) + u == 1 is added
for every (day, manager shift) unconditionally, even with no candidate
variables. -/
def mgrCoverOKMod (rows : List StaffRow) (σ : Assign)
    (u : Day → Shift → Bool) : Bool :=
  days.all fun d =>
    managerShiftList.all fun m =>
      decide (mgrSumMod rows σ d m + b2n (u d m) = 1)

/-- Manager weekly limit of mod.py: each Manager-role row has at most 4
manager-shift variables set. -/
def mgrCapOKMod (rows : List StaffRow) (σ : Assign) : Bool :=
  rows.all fun r =>
    !(r.role = "Manager" : Bool) || decide (mgrWeekCountMod σ r ≤ 4)

def costOKMod (rows : List StaffRow) (σ : Assign) : Bool :=
  decide (costScaledMod rows σ ≤ 20000 * 1000000)

/-- Weekly-hour deviation of mod.py: for every row owning variables, a
slack with declared domain [0, 100000000] and AddAbsEquality
dev = |total − 70·1000|. -/
def hourDevOKMod (rows : List StaffRow) (σ : Assign)
    (dev : StaffRow → ℕ) : Bool :=
  rows.all fun r =>
    !(hasVarMod r) ||
      (decide (dev r ≤ 100000000) &&
       decide (dev r = ((totalHoursScaledMod σ r : ℤ) - 70000).natAbs))

/-- The complete constraint set emitted by mod.py. -/
def satHardMod (rows : List StaffRow) (σ : Assign)
    (u : Day → Shift → Bool) (dev : StaffRow → ℕ) : Bool :=
  oneShiftOKMod rows σ && mgrCoverOKMod rows σ u && mgrCapOKMod rows σ &&
  costOKMod rows σ && hourDevOKMod rows σ dev

/-! ## The fileOne.py variant

fileOne.py is the earliest variant: the same three crew shifts as mod.py,
but its MAIN SHIFTS loop has no role gate — every role, managers included,
receives crew-shift variables by window containment alone; Flex is gated by
role Both and a Yellow/Green tier; manager shifts require role 'Manager'.
Its constraint set has no one-shift-per-day constraint and no weekly-hour
cap: only the unconditional manager-coverage equality, the 4-shift weekly
manager cap, the cost ceiling (rate chosen by role, and shift_hours.get
defaulting manager shifts and Flex to 5 hours), and the per-staff
hour-deviation slack declared on [0, 1000000]. -/

/-- Variable generation of fileOne.py: crew shifts A/B/C for every role by
containment (no role gate); Flex gated by role == 'Both' and a Yellow/Green
day; manager shifts only for role == 'Manager'. -/
def varExistsFileOne (r : StaffRow) (d : Day) (s : Shift) : Bool :=
  match r.avail d with
  | none => false
  | some (a, b) =>
    match s with
    | ShiftA | ShiftB | ShiftC => decide (a ≤ shiftStart s ∧ shiftEnd s ≤ b)
    | ShiftD => false
    | Flex =>
      r.role = "Both" &&
        (dayDemand d = Yellow || dayDemand d = Green : Bool) &&
        decide (a ≤ 8000 ∧ 13000 ≤ b)
    | MornManager | AftManager =>
      r.role = "Manager" && decide (a ≤ shiftStart s ∧ shiftEnd s ≤ b)

/-- Scaled hours used by fileOne.py's cost and hour-deviation sums:
shift_hours.get(shift, flexible_shift[1]-flexible_shift[0]) — ShiftA/B/C
from the table, every other key (Flex and the manager shifts) falls back to
the 5-hour default (13.0 − 8.0 = 5.0, exact in float).  No ShiftD variable
ever exists; the default would apply. -/
def hoursScaledFileOne : Shift → ℕ
| ShiftA => 8000
| ShiftB => 7000
| ShiftC => 4750
| _ => 5000

def assignedFileOne (σ : Assign) (r : StaffRow) (d : Day) (s : Shift) : Bool :=
  varExistsFileOne r d s && σ r d s

def mgrSumFileOne (rows : List StaffRow) (σ : Assign) (d : Day)
    (m : Shift) : ℕ :=
  (rows.map fun r => b2n (assignedFileOne σ r d m)).sum

/-- Assigned manager shifts of one row over the week in fileOne.py. -/
def mgrWeekCountFileOne (σ : Assign) (r : StaffRow) : ℕ :=
  (days.map fun d =>
    (managerShiftList.map fun m => b2n (assignedFileOne σ r d m)).sum).sum

/-- Scaled weekly hours of one row in fileOne.py: every variable of the row
contributes shift_hours.get(shift, 5). -/
def totalHoursScaledFileOne (σ : Assign) (r : StaffRow) : ℕ :=
  (days.map fun d =>
    (allShifts.map fun s =>
      b2n (assignedFileOne σ r d s) * hoursScaledFileOne s).sum).sum

/-- Whether a row owns any decision variable (the `if assigned_hours:`
guard of fileOne.py's deviation constraint). -/
def hasVarFileOne (r : StaffRow) : Bool :=
  days.any fun d => allShifts.any fun s => varExistsFileOne r d s

/-- Effective scaled rate in fileOne.py's cost loop: chosen by ROLE, not by
shift — a Manager-role staff is costed at the manager rate (with the
weekend multiplier) even on a crew-shift variable. -/
def rateScaledFileOne (r : StaffRow) (d : Day) : ℕ :=
  if r.role = "Manager" then managerRateScaled d else crewPayScaled r.age

def costScaledFileOne (rows : List StaffRow) (σ : Assign) : ℕ :=
  (rows.map fun r =>
    (days.map fun d =>
      (allShifts.map fun s =>
        b2n (assignedFileOne σ r d s) * hoursScaledFileOne s *
          rateScaledFileOne r d).sum).sum).sum

/-- Manager coverage in fileOne.py: the equality sum(manager_vars) + u == 1
is added for every (day, manager shift) unconditionally. -/
def mgrCoverOKFileOne (rows : List StaffRow) (σ : Assign)
    (u : Day → Shift → Bool) : Bool :=
  days.all fun d =>
    managerShiftList.all fun m =>
      decide (mgrSumFileOne rows σ d m + b2n (u d m) = 1)

/-- Manager weekly limit of fileOne.py: at most 4 manager shifts per
Manager-role row (the `if mgr_vars:` guard only skips a vacuous 0 ≤ 4). -/
def mgrCapOKFileOne (rows : List StaffRow) (σ : Assign) : Bool :=
  rows.all fun r =>
    !(r.role = "Manager" : Bool) || decide (mgrWeekCountFileOne σ r ≤ 4)

def costOKFileOne (rows : List StaffRow) (σ : Assign) : Bool :=
  decide (costScaledFileOne rows σ ≤ 20000 * 1000 * 1000)

/-- Hour-deviation slack of fileOne.py: declared domain [0, 1000000] and
AddAbsEquality dev = |total − 70·1000| for every row owning a variable. -/
def hourDevOKFileOne (rows : List StaffRow) (σ : Assign)
    (dev : StaffRow → ℕ) : Bool :=
  rows.all fun r =>
    !(hasVarFileOne r) ||
      (decide (dev r ≤ 1000000) &&
       decide (dev r = ((totalHoursScaledFileOne σ r : ℤ) - 70000).natAbs))

/-- The complete constraint set emitted by fileOne.py — note the absence of
any one-shift-per-day or weekly-hour hard constraint. -/
def satHardFileOne (rows : List StaffRow) (σ : Assign)
    (u : Day → Shift → Bool) (dev : StaffRow → ℕ) : Bool :=
  mgrCoverOKFileOne rows σ u && mgrCapOKFileOne rows σ &&
  costOKFileOne rows σ && hourDevOKFileOne rows σ dev

/-! ## Solve status and roster materialization (roster_v2.py output stage) -/

/-- CP-SAT solve statuses. -/
inductive SolveStatus
| Optimal | Feasible | Infeasible | ModelInvalid | Unknown
deriving DecidableEq, Repr

/-- One output record of roster_v2.py (times and hours kept in the ×1000
scale; the pay rate scaled by 1000). -/
structure RosterAssignment where
  staff : String
  role : String
  day : Day
  shift : Shift
  startTime : ℤ
  endTime : ℤ
  hoursScaled : ℕ
  rateScaled : ℕ
deriving Repr

/-- The roster list built from the true-valued variables. -/
def buildRosterV2 (rows : List StaffRow) (σ : Assign) : List RosterAssignment :=
  rows.flatMap fun r =>
    days.flatMap fun d =>
      (allShifts.filter fun s => assignedV2 σ r d s).map fun s =>
        { staff := r.name, role := r.role, day := d, shift := s,
          startTime := shiftStart s, endTime := shiftEnd s,
          hoursScaled := hoursScaled s, rateScaled := rateScaledV2 r d s }

/-- The output gate of roster_v2.py: a roster is materialized iff the solve
status is OPTIMAL or FEASIBLE; otherwise nothing is produced. -/
def emitRosterV2 (st : SolveStatus) (rows : List StaffRow) (σ : Assign) :
    Option (List RosterAssignment) :=
  if st = SolveStatus.Optimal ∨ st = SolveStatus.Feasible then
    some (buildRosterV2 rows σ)
  else
    none

/-! ## Claim-side characterizations and concrete instances -/

/-- The window-containment test of the generation loops, factored out:
the staff's availability window that day fully contains the shift's time
window (start ≤ shift start and end ≥ shift end). -/
def windowContains (r : StaffRow) (d : Day) (s : Shift) : Bool :=
  match r.avail d with
  | none => false
  | some (a, b) => decide (a ≤ shiftStart s ∧ shiftEnd s ≤ b)

/-- Role/shift capability as the spec words it (§3 invariants, §4.1):
managers and relay managers match exactly the manager shifts; FOH, BOH and
Both match the crew shifts; only Both matches the flexible shift.  Stated
for comparison with the source-derived `varExistsV2`. -/
def specRoleCapability (role : String) (s : Shift) : Bool :=
  match s with
  | MornManager | AftManager => role = "Manager" || role = "RM"
  | Flex => role = "Both"
  | ShiftA | ShiftB | ShiftC | ShiftD =>
    role = "FOH" || role = "BOH" || role = "Both"

/-- A FOH crew member available 5:00–14:00 on Monday only. -/
def fohMonRow : StaffRow :=
  ⟨"F", "FOH", 20, fun d => if d = Mon then some (5000, 14000) else none⟩

/-- A manager available 5:00–22:00 every day. -/
def mgrAllWeek : StaffRow := ⟨"M", "Manager", 40, fun _ => some (5000, 22000)⟩

/-- A Both-role staff member available exactly 8:00–13:00 every day. -/
def bothRedRow : StaffRow := ⟨"B", "Both", 20, fun _ => some (8000, 13000)⟩

/-- A staff row with a role tag outside the canonical set. -/
def chefRow : StaffRow := ⟨"C", "Chef", 30, fun _ => some (5000, 22000)⟩

/-- The all-false valuation. -/
def σFalse : Assign := fun _ _ _ => false

/-- Valuation assigning ShiftA on Monday (to whoever holds the variable). -/
def σFohA : Assign := fun _ d s => decide (d = Mon) && decide (s = ShiftA)

/-- Valuation assigning the morning manager shift every day. -/
def σMgrMorn : Assign := fun _ _ s => decide (s = MornManager)

/-- Valuation assigning the morning manager shift Monday–Thursday. -/
def σMgrMorn4 : Assign := fun _ d s =>
  decide (s = MornManager) && decide (d = Mon ∨ d = Tue ∨ d = Wed ∨ d = Thu)

/-- Understaffed slacks for `[fohMonRow]` with nothing assigned. -/
def usFoh : Day → Shift → ReqRole → ℕ := fun _ s _ => if s = ShiftA then 1 else 2

/-- Understaffed slacks for `[fohMonRow]` with Monday ShiftA assigned. -/
def usFohA : Day → Shift → ReqRole → ℕ := fun _ s _ => if s = ShiftA then 0 else 2

/-- Understaffed slacks when no candidate list is ever nonempty. -/
def usZero : Day → Shift → ReqRole → ℕ := fun _ _ _ => 0

/-- min_staff_short when nobody is assigned. -/
def msFull : Day → ℕ := fun d => minStaffReq (dayDemand d)

/-- min_staff_short when exactly one person is assigned on Monday. -/
def msFohA : Day → ℕ := fun d =>
  if d = Mon then 13 else minStaffReq (dayDemand d)

/-- min_staff_short when exactly one person is assigned every day. -/
def msOne : Day → ℕ := fun d => minStaffReq (dayDemand d) - 1

/-- Uncovered booleans: nothing uncovered. -/
def uFalse : Day → Shift → Bool := fun _ _ => false

/-- Uncovered booleans when only every morning manager shift is covered. -/
def uAft : Day → Shift → Bool := fun _ m => decide (m = AftManager)

/-- Uncovered booleans when the morning manager shift is covered
Monday–Thursday only. -/
def uMgr4 : Day → Shift → Bool := fun d m =>
  decide (m = AftManager) || decide (d = Fri ∨ d = Sat ∨ d = Sun)

/-- Hour-deviation slacks for the 4-shift manager instance:
|4·8000 − 70000| = 38000. -/
def devMgr4 : StaffRow → ℕ := fun _ => 38000

/-- A Both-role staff member available 5:00–22:00 every day. -/
def bothAllWeek : StaffRow := ⟨"B2", "Both", 20, fun _ => some (5000, 22000)⟩

/-- Valuation assigning the three crew shifts and Flex everywhere the
variable exists. -/
def σCrewAll : Assign := fun _ _ s =>
  decide (s = ShiftA ∨ s = ShiftB ∨ s = ShiftC ∨ s = Flex)

/-- Uncovered booleans: every manager shift uncovered. -/
def uTrue : Day → Shift → Bool := fun _ _ => true

/-- Hour-deviation slack for `bothAllWeek` under `σCrewAll` in fileOne.py:
7·(8000+7000+4750) + 4·5000 = 158250 scaled hours, |158250 − 70000| =
88250. -/
def devBoth : StaffRow → ℕ := fun _ => 88250

/-! ## Helper lemmas -/

theorem mem_days (d : Day) : d ∈ days := by cases d <;> simp [days]

theorem satHardV2_parts {rows : List StaffRow} {σ : Assign}
    {us : Day → Shift → ReqRole → ℕ} {ms : Day → ℕ} {u : Day → Shift → Bool}
    (h : satHardV2 rows σ us ms u = true) :
    oneShiftOKV2 rows σ = true ∧ understaffedOKV2 rows σ us = true ∧
    minStaffOKV2 rows σ ms = true ∧ rmCapOKV2 rows σ = true ∧
    crewHoursOKV2 rows σ = true ∧ costOKV2 rows σ = true ∧
    mgrCoverOKV2 rows σ u = true := by
  simp only [satHardV2, Bool.and_eq_true] at h
  tauto

theorem satHardMod_parts {rows : List StaffRow} {σ : Assign}
    {u : Day → Shift → Bool} {dev : StaffRow → ℕ}
    (h : satHardMod rows σ u dev = true) :
    oneShiftOKMod rows σ = true ∧ mgrCoverOKMod rows σ u = true ∧
    mgrCapOKMod rows σ = true ∧ costOKMod rows σ = true ∧
    hourDevOKMod rows σ dev = true := by
  simp only [satHardMod, Bool.and_eq_true] at h
  tauto

theorem satHardFileOne_parts {rows : List StaffRow} {σ : Assign}
    {u : Day → Shift → Bool} {dev : StaffRow → ℕ}
    (h : satHardFileOne rows σ u dev = true) :
    mgrCoverOKFileOne rows σ u = true ∧ mgrCapOKFileOne rows σ = true ∧
    costOKFileOne rows σ = true ∧ hourDevOKFileOne rows σ dev = true := by
  simp only [satHardFileOne, Bool.and_eq_true] at h
  tauto

theorem list_sum_mul_le {α : Type} (l : List α) (f g : α → ℕ) (c : ℕ)
    (H : ∀ x ∈ l, g x ≤ c) :
    (l.map fun x => f x * g x).sum ≤ (l.map f).sum * c := by
  induction l with
  | nil => simp
  | cons a t ih =>
    simp only [List.map_cons, List.sum_cons, Nat.add_mul]
    have h1 : f a * g a ≤ f a * c :=
      Nat.mul_le_mul_left _ (H a (List.mem_cons_self a t))
    have h2 := ih fun x hx => H x (List.mem_cons_of_mem a hx)
    omega

theorem dayHoursMod_le (σ : Assign) (r : StaffRow) (d : Day)
    (h : dayCountMod σ r d ≤ 1) :
    (allShifts.map fun s => b2n (assignedMod σ r d s) * hoursScaledMod s).sum
      ≤ 8000 := by
  have H : ∀ s ∈ allShifts, hoursScaledMod s ≤ 8000 := by decide
  have h1 := list_sum_mul_le allShifts
    (fun s => b2n (assignedMod σ r d s)) hoursScaledMod 8000 H
  have e1 : (allShifts.map
      fun x => (fun s => b2n (assignedMod σ r d s)) x * hoursScaledMod x)
      = allShifts.map fun s => b2n (assignedMod σ r d s) * hoursScaledMod s := rfl
  have e2 : (allShifts.map fun s => b2n (assignedMod σ r d s)).sum
      = dayCountMod σ r d := rfl
  rw [e1, e2] at h1
  have h2 : dayCountMod σ r d * 8000 ≤ 1 * 8000 := Nat.mul_le_mul_right _ h
  omega

theorem totalHoursScaledMod_le {σ : Assign} {r : StaffRow}
    (h : ∀ d : Day, dayCountMod σ r d ≤ 1) :
    totalHoursScaledMod σ r ≤ 56000 := by
  have H : ∀ x ∈ (days.map fun d =>
      (allShifts.map fun s => b2n (assignedMod σ r d s) * hoursScaledMod s).sum),
      x ≤ 8000 := by
    intro x hx
    obtain ⟨d, _, rfl⟩ := List.mem_map.mp hx
    exact dayHoursMod_le σ r d (h d)
  have h1 := List.sum_le_card_nsmul _ 8000 H
  simp only [List.length_map] at h1
  have h2 : days.length = 7 := by decide
  rw [h2] at h1
  simpa [totalHoursScaledMod] using h1

/-! ## Claims -/

/-- C1: in every solution of the roster_v2.py constraint set — hence in every
roster returned with status Optimal or Feasible — the sum over all assigned
decision variables of (scaled shift hours × scaled effective rate) is at most
the weekly cost ceiling 20000 × 1,000,000, where the effective rate is the
age-band rate (fallback 18) for crew and flexible shifts and the manager flat
rate (30) times the weekend multiplier (1.2 Sat, 1.5 Sun, default 1) for
manager shifts, everything in the ×1000 integer scaling of the code. -/
theorem c1_cost_ceiling_v2 (rows : List StaffRow) (σ : Assign)
    (us : Day → Shift → ReqRole → ℕ) (ms : Day → ℕ) (u : Day → Shift → Bool)
    (h : satHardV2 rows σ us ms u = true) :
    costScaledV2 rows σ ≤ 20000 * 1000000 := by
  have hc := (satHardV2_parts h).2.2.2.2.2.1
  simpa [costOKV2] using hc

theorem c1_cost_ceiling_v2_witness :
    satHardV2 [fohMonRow] σFohA usFohA msFohA uFalse = true ∧
    costScaledV2 [fohMonRow] σFohA ≤ 20000 * 1000000 :=
  ⟨by decide, c1_cost_ceiling_v2 [fohMonRow] σFohA usFohA msFohA uFalse (by decide)⟩

/-- C2: in every solution of the roster_v2.py constraint set, every staff row
has at most one assigned decision variable per day — no staff member works
two shifts on the same day. -/
theorem c2_one_shift_per_day_v2 (rows : List StaffRow) (σ : Assign)
    (us : Day → Shift → ReqRole → ℕ) (ms : Day → ℕ) (u : Day → Shift → Bool)
    (h : satHardV2 rows σ us ms u = true)
    (r : StaffRow) (hr : r ∈ rows) (d : Day) :
    dayCountV2 σ r d ≤ 1 := by
  have h1 := (satHardV2_parts h).1
  simp only [oneShiftOKV2, List.all_eq_true] at h1
  exact of_decide_eq_true (h1 r hr d (mem_days d))

theorem c2_one_shift_per_day_v2_witness :
    satHardV2 [fohMonRow] σFohA usFohA msFohA uFalse = true ∧
    dayCountV2 σFohA fohMonRow Mon ≤ 1 :=
  ⟨by decide,
   c2_one_shift_per_day_v2 [fohMonRow] σFohA usFohA msFohA uFalse (by decide) fohMonRow (List.Mem.head _) Mon⟩

/-- C7: the output stage of roster_v2.py materializes a roster only when the
solve status is Optimal or Feasible; for any other status (e.g. Infeasible)
no RosterAssignment record and no roster output is produced. -/
theorem c7_no_output_unless_feasible (st : SolveStatus) (rows : List StaffRow)
    (σ : Assign) (h1 : st ≠ SolveStatus.Optimal)
    (h2 : st ≠ SolveStatus.Feasible) :
    emitRosterV2 st rows σ = none := by
  simp [emitRosterV2, h1, h2]

theorem c7_no_output_unless_feasible_witness :
    emitRosterV2 SolveStatus.Infeasible [fohMonRow] σFalse = none :=
  c7_no_output_unless_feasible _ _ _ (by decide) (by decide)

/-- C10: because each shortfall slack is tied by an equality to its target
and bounded in [0, target], every coverage target with a nonempty candidate
list is also a hard upper bound in roster_v2.py: the assigned candidates of
each (day, shift, role-category) requirement never exceed the required
headcount, and the total staff assigned on a day never exceed the tier
minimum (14 Red, 12 Yellow, 10 Green). -/
theorem c10_coverage_upper_bounds_v2 (rows : List StaffRow) (σ : Assign)
    (us : Day → Shift → ReqRole → ℕ) (ms : Day → ℕ) (u : Day → Shift → Bool)
    (h : satHardV2 rows σ us ms u = true) :
    (∀ d : Day, ∀ p ∈ staffingReqs (dayDemand d), ∀ q ∈ p.2,
      candExistsV2 rows d p.1 q.1 = true →
        candSumV2 rows σ d p.1 q.1 ≤ q.2) ∧
    (∀ d : Day, dayTotalV2 rows σ d ≤ minStaffReq (dayDemand d)) := by
  obtain ⟨-, h2, h3, -⟩ := satHardV2_parts h
  constructor
  · intro d p hp q hq hcand
    simp only [understaffedOKV2, List.all_eq_true] at h2
    have h4 := h2 d (mem_days d) p hp q hq
    rw [hcand] at h4
    simp only [Bool.not_true, Bool.false_or, Bool.and_eq_true,
      decide_eq_true_eq] at h4
    omega
  · intro d
    simp only [minStaffOKV2, List.all_eq_true, Bool.and_eq_true,
      decide_eq_true_eq] at h3
    have h4 := h3 d (mem_days d)
    omega

theorem c10_coverage_upper_bounds_v2_witness :
    satHardV2 [fohMonRow] σFohA usFohA msFohA uFalse = true ∧
    candSumV2 [fohMonRow] σFohA Mon ShiftA FOH ≤ 1 ∧
    dayTotalV2 [fohMonRow] σFohA Mon ≤ minStaffReq (dayDemand Mon) :=
  ⟨by decide,
   (c10_coverage_upper_bounds_v2 [fohMonRow] σFohA usFohA msFohA uFalse (by decide)).1 Mon
     (ShiftA, [(FOH, 1)]) (by decide) (FOH, 1) (by decide) (by decide),
   (c10_coverage_upper_bounds_v2 [fohMonRow] σFohA usFohA msFohA uFalse (by decide)).2 Mon⟩

theorem varExistsV2_contains {r : StaffRow} {d : Day} {s : Shift}
    (h : varExistsV2 r d s = true) : windowContains r d s = true := by
  unfold varExistsV2 at h
  unfold windowContains
  cases hav : r.avail d with
  | none => rw [hav] at h; exact absurd h (by simp)
  | some p =>
    obtain ⟨a, b⟩ := p
    rw [hav] at h
    dsimp only at h ⊢
    by_cases hm : isManagerRoleV2 r.role = true
    · rw [if_pos hm] at h
      cases s <;> simp_all [shiftStart, shiftEnd]
    · rw [if_neg hm] at h
      cases s <;> simp_all [shiftStart, shiftEnd]

/-- C3 counterexample: in fileOne.py the MAIN SHIFTS loop has no role gate,
so a Manager-role staff member with a containing window receives a
crew-shift decision variable although a crew shift does not match the
manager role capability — the claimed "only if capability matches"
direction fails for that cited variant. -/
theorem c3_role_gate_counterexample_fileone :
    mgrAllWeek.role = "Manager" ∧
    specRoleCapability mgrAllWeek.role ShiftA = false ∧
    varExistsFileOne mgrAllWeek Mon ShiftA = true := by decide

/-- C3 amended: in roster_v2.py, for every canonical role, the decision
variable for (staff, day, shift) is created exactly when the shift's
category matches the role capability and the availability window fully
contains the shift window, and every assigned variable of any valuation
lies inside the window; in fileOne.py the crew-shift loop has no role gate
— a crew variable (ShiftA/B/C) is created for any role, managers included,
by window containment alone — while its manager shifts require role
'Manager' (and its Flex branch is tier-gated, as settled under C4). -/
theorem c3_eligibility_amended (r : StaffRow) (d : Day) (s : Shift)
    (hrole : r.role = "FOH" ∨ r.role = "BOH" ∨ r.role = "Both" ∨
      r.role = "Manager" ∨ r.role = "RM") :
    varExistsV2 r d s = (specRoleCapability r.role s && windowContains r d s) ∧
    (∀ σ : Assign, assignedV2 σ r d s = true →
      windowContains r d s = true) ∧
    ((s = ShiftA ∨ s = ShiftB ∨ s = ShiftC) →
      varExistsFileOne r d s = windowContains r d s) ∧
    ((s = MornManager ∨ s = AftManager) →
      varExistsFileOne r d s =
        (decide (r.role = "Manager") && windowContains r d s)) := by
  refine ⟨?_, fun σ hσ => varExistsV2_contains (by
    simp only [assignedV2, Bool.and_eq_true] at hσ
    exact hσ.1), ?_, ?_⟩
  · rcases hrole with h | h | h | h | h <;>
    · cases hav : r.avail d with
      | none =>
        cases s <;>
          simp [varExistsV2, windowContains, specRoleCapability,
            isManagerRoleV2, hav, h]
      | some p =>
        obtain ⟨a, b⟩ := p
        cases s <;>
          simp [varExistsV2, windowContains, specRoleCapability,
            isManagerRoleV2, hav, h, shiftStart, shiftEnd]
  · intro hs
    rcases hs with h | h | h <;> subst h <;>
    · cases hav : r.avail d with
      | none => simp [varExistsFileOne, windowContains, hav]
      | some p =>
        obtain ⟨a, b⟩ := p
        simp [varExistsFileOne, windowContains, hav]
  · intro hs
    rcases hs with h | h <;> subst h <;>
    · cases hav : r.avail d with
      | none => simp [varExistsFileOne, windowContains, hav]
      | some p =>
        obtain ⟨a, b⟩ := p
        simp [varExistsFileOne, windowContains, hav]

theorem c3_eligibility_amended_witness :
    (varExistsV2 fohMonRow Mon ShiftA =
      (specRoleCapability fohMonRow.role ShiftA &&
        windowContains fohMonRow Mon ShiftA)) ∧
    (∀ σ : Assign, assignedV2 σ fohMonRow Mon ShiftA = true →
      windowContains fohMonRow Mon ShiftA = true) ∧
    ((ShiftA = ShiftA ∨ ShiftA = ShiftB ∨ ShiftA = ShiftC) →
      varExistsFileOne fohMonRow Mon ShiftA =
        windowContains fohMonRow Mon ShiftA) ∧
    ((ShiftA = MornManager ∨ ShiftA = AftManager) →
      varExistsFileOne fohMonRow Mon ShiftA =
        (decide (fohMonRow.role = "Manager") &&
          windowContains fohMonRow Mon ShiftA)) :=
  c3_eligibility_amended fohMonRow Mon ShiftA (Or.inl rfl)

/-- C4 counterexample: roster_v2.py creates a Flex decision variable for a
Both-role staff member on Monday although Monday's demand tier is Red — the
claimed demand-tier gate is absent from roster_v2.py's Flex branch. -/
theorem c4_flex_on_red_counterexample_v2 :
    bothRedRow.role = "Both" ∧ dayDemand Mon = Red ∧
    varExistsV2 bothRedRow Mon Flex = true := by decide

/-- C4 amended: the demand-tier gate on the flexible shift exists in mod.py
(and fileOne.py): a Flex variable there requires role Both and a Yellow or
Green day.  In roster_v2.py the gate is only role Both (plus window
containment) — a Flex variable can exist on a Red day. -/
theorem c4_flex_gating_amended (r : StaffRow) (d : Day) :
    (varExistsMod r d Flex = true →
      r.role = "Both" ∧ (dayDemand d = Yellow ∨ dayDemand d = Green)) ∧
    (varExistsV2 r d Flex = true → r.role = "Both") := by
  constructor
  · intro h
    unfold varExistsMod at h
    cases hav : r.avail d with
    | none => rw [hav] at h; exact absurd h (by simp)
    | some p =>
      obtain ⟨a, b⟩ := p
      rw [hav] at h
      dsimp only at h
      simp only [Bool.and_eq_true, Bool.or_eq_true, decide_eq_true_eq] at h
      exact ⟨h.1.1, h.1.2⟩
  · intro h
    unfold varExistsV2 at h
    cases hav : r.avail d with
    | none => rw [hav] at h; exact absurd h (by simp)
    | some p =>
      obtain ⟨a, b⟩ := p
      rw [hav] at h
      dsimp only at h
      by_cases hm : isManagerRoleV2 r.role = true
      · rw [if_pos hm] at h
        exact absurd h (by simp)
      · rw [if_neg hm] at h
        simp only [Bool.and_eq_true, decide_eq_true_eq] at h
        exact h.1

theorem c4_flex_gating_witness :
    (bothRedRow.role = "Both" ∧
      (dayDemand Thu = Yellow ∨ dayDemand Thu = Green)) ∧
    bothRedRow.role = "Both" :=
  ⟨(c4_flex_gating_amended bothRedRow Thu).1 (by decide),
   (c4_flex_gating_amended bothRedRow Thu).2 (by decide)⟩

/-- C5 counterexample: roster_v2.py contains no weekly manager-shift cap.
This solution satisfies roster_v2.py's complete constraint set while a
Manager-role staff member works 7 manager shifts in the week. -/
theorem c5_mgr_cap_counterexample_v2 :
    satHardV2 [mgrAllWeek] σMgrMorn usZero msOne uAft = true ∧
    mgrAllWeek.role = "Manager" ∧
    ¬(mgrWeekCountV2 σMgrMorn mgrAllWeek ≤ 4) := by decide

/-- C5 amended: the 4-shift weekly manager cap is enforced in mod.py (and
fileOne.py): in every solution of the mod.py constraint set, each
Manager-role staff member has at most 4 assigned manager shifts per week.
roster_v2.py has no such constraint (a manager can work up to 7). -/
theorem c5_mgr_cap_mod_amended (rows : List StaffRow) (σ : Assign)
    (u : Day → Shift → Bool) (dev : StaffRow → ℕ)
    (h : satHardMod rows σ u dev = true)
    (r : StaffRow) (hr : r ∈ rows) (hrole : r.role = "Manager") :
    mgrWeekCountMod σ r ≤ 4 := by
  have h3 := (satHardMod_parts h).2.2.1
  simp only [mgrCapOKMod, List.all_eq_true] at h3
  have h4 := h3 r hr
  simp only [hrole] at h4
  simpa using h4

theorem c5_mgr_cap_mod_witness :
    satHardMod [mgrAllWeek] σMgrMorn4 uMgr4 devMgr4 = true ∧
    mgrWeekCountMod σMgrMorn4 mgrAllWeek ≤ 4 :=
  ⟨by decide,
   c5_mgr_cap_mod_amended [mgrAllWeek] σMgrMorn4 uMgr4 devMgr4 (by decide)
     mgrAllWeek (List.Mem.head _) rfl⟩

/-- C6 counterexample: in roster_v2.py the manager-coverage equality is added
only when the candidate list is nonempty.  With no manager staff, this
solution satisfies the complete constraint set while
sum(candidates) + slack = 0 ≠ 1 for (Mon, Morn_Manager). -/
theorem c6_mgr_coverage_counterexample_v2 :
    satHardV2 [fohMonRow] σFalse usFoh msFull uFalse = true ∧
    mgrVarExistsV2 [fohMonRow] Mon MornManager = false ∧
    mgrSumV2 [fohMonRow] σFalse Mon MornManager +
      b2n (uFalse Mon MornManager) ≠ 1 := by decide

/-- C6 amended: the coverage equality sum(candidates) + slack = 1 holds for
every (day, manager-shift) pair in mod.py (and fileOne.py), even with no
candidate variables; in roster_v2.py it holds exactly for the pairs with at
least one candidate variable. -/
theorem c6_mgr_coverage_amended (rows : List StaffRow) (σ : Assign)
    (us : Day → Shift → ReqRole → ℕ) (ms : Day → ℕ) (u : Day → Shift → Bool)
    (h : satHardV2 rows σ us ms u = true)
    (rows' : List StaffRow) (σ' : Assign) (u' : Day → Shift → Bool)
    (dev : StaffRow → ℕ) (h' : satHardMod rows' σ' u' dev = true) :
    (∀ d : Day, ∀ m ∈ managerShiftList, mgrVarExistsV2 rows d m = true →
      mgrSumV2 rows σ d m + b2n (u d m) = 1) ∧
    (∀ d : Day, ∀ m ∈ managerShiftList,
      mgrSumMod rows' σ' d m + b2n (u' d m) = 1) := by
  constructor
  · intro d m hm hex
    have h7 := (satHardV2_parts h).2.2.2.2.2.2
    simp only [mgrCoverOKV2, List.all_eq_true] at h7
    have h8 := h7 d (mem_days d) m hm
    rw [hex] at h8
    simpa using h8
  · intro d m hm
    have h2 := (satHardMod_parts h').2.1
    simp only [mgrCoverOKMod, List.all_eq_true] at h2
    exact of_decide_eq_true (h2 d (mem_days d) m hm)

theorem c6_mgr_coverage_witness :
    (mgrSumV2 [mgrAllWeek] σMgrMorn Mon MornManager +
      b2n (uAft Mon MornManager) = 1) ∧
    (mgrSumMod [mgrAllWeek] σMgrMorn4 Fri MornManager +
      b2n (uMgr4 Fri MornManager) = 1) :=
  ⟨(c6_mgr_coverage_amended [mgrAllWeek] σMgrMorn usZero msOne uAft (by decide)
      [mgrAllWeek] σMgrMorn4 uMgr4 devMgr4 (by decide)).1
      Mon MornManager (by decide) (by decide),
   (c6_mgr_coverage_amended [mgrAllWeek] σMgrMorn usZero msOne uAft (by decide)
      [mgrAllWeek] σMgrMorn4 uMgr4 devMgr4 (by decide)).2
      Fri MornManager (by decide)⟩

/-- C9 counterexample: roster_v2.py performs no role validation and raises no
error for a role tag outside the canonical set; a row with role 'Chef'
silently receives a crew-shift decision variable. -/
theorem c9_unknown_role_counterexample_v2 :
    chefRow.role ≠ "FOH" ∧ chefRow.role ≠ "BOH" ∧ chefRow.role ≠ "Both" ∧
    chefRow.role ≠ "Manager" ∧ chefRow.role ≠ "RM" ∧
    chefRow.role ≠ "Manger" ∧
    varExistsV2 chefRow Mon ShiftA = true := by decide

/-- C9 amended: the only role normalization is the 'Manger' → 'Manager'
spelling fix; an unrecognized role is not rejected but silently treated as
crew: it generates exactly the four crew-shift variables allowed by window
containment, and never a manager or flexible shift variable. -/
theorem c9_unknown_role_amended (r : StaffRow) (d : Day) (s : Shift)
    (h1 : isManagerRoleV2 r.role = false) (h2 : r.role ≠ "Both") :
    varExistsV2 r d s =
      ((decide (s = ShiftA) || decide (s = ShiftB) || decide (s = ShiftC) ||
        decide (s = ShiftD)) && windowContains r d s) ∧
    normalizeRole "Manger" = "Manager" := by
  refine ⟨?_, rfl⟩
  cases hav : r.avail d with
  | none =>
    cases s <;>
      simp [varExistsV2, windowContains, hav, h1, h2]
  | some p =>
    obtain ⟨a, b⟩ := p
    cases s <;>
      simp [varExistsV2, windowContains, hav, h1, h2, shiftStart, shiftEnd]

theorem c9_unknown_role_witness :
    (varExistsV2 chefRow Mon ShiftA =
      ((decide (ShiftA = ShiftA) || decide (ShiftA = ShiftB) ||
        decide (ShiftA = ShiftC) || decide (ShiftA = ShiftD)) &&
        windowContains chefRow Mon ShiftA)) ∧
    normalizeRole "Manger" = "Manager" :=
  c9_unknown_role_amended chefRow Mon ShiftA (by decide) (by decide)

/-- C8 counterexample: fileOne.py has no one-shift-per-day constraint, so a
Both-role staff member can work ShiftA, ShiftB and ShiftC every day plus
Flex on the four Yellow/Green days — 158.25 scaled hours.  This solution
satisfies fileOne.py's complete constraint set while the hour-deviation
slack equals |158250 − 70000| = 88250, exceeding its 70000 target
magnitude; the slack is only limited by its declared domain [0, 1000000]. -/
theorem c8_dev_exceeds_target_counterexample_fileone :
    satHardFileOne [bothAllWeek] σCrewAll uTrue devBoth = true ∧
    hasVarFileOne bothAllWeek = true ∧
    devBoth bothAllWeek =
      ((totalHoursScaledFileOne σCrewAll bothAllWeek : ℤ) - 70000).natAbs ∧
    ¬(devBoth bothAllWeek ≤ 70000) := by decide

/-- C8 amended: in roster_v2.py each created understaffed slack has domain
[0, required count], each per-day minimum-headcount slack has domain
[0, tier minimum], and each manager-coverage slack is boolean (≤ 1); the
per-staff weekly-hour deviation slack never exceeds its target magnitude
70000 in any mod.py solution (one shift per day bounds scaled weekly hours
by 56000), but in fileOne.py — which has no one-shift-per-day constraint —
it is bounded only by its declared domain [0, 1000000] and can exceed the
target. -/
theorem c8_slack_bounds_amended (rows : List StaffRow) (σ : Assign)
    (us : Day → Shift → ReqRole → ℕ) (ms : Day → ℕ) (u : Day → Shift → Bool)
    (h : satHardV2 rows σ us ms u = true)
    (rows' : List StaffRow) (σ' : Assign) (u' : Day → Shift → Bool)
    (dev : StaffRow → ℕ) (h' : satHardMod rows' σ' u' dev = true)
    (rows2 : List StaffRow) (σ2 : Assign) (u2 : Day → Shift → Bool)
    (dev2 : StaffRow → ℕ) (h2f : satHardFileOne rows2 σ2 u2 dev2 = true) :
    (∀ d : Day, ∀ p ∈ staffingReqs (dayDemand d), ∀ q ∈ p.2,
      candExistsV2 rows d p.1 q.1 = true → us d p.1 q.1 ≤ q.2) ∧
    (∀ d : Day, ms d ≤ minStaffReq (dayDemand d)) ∧
    (∀ d : Day, ∀ m : Shift, b2n (u d m) ≤ 1) ∧
    (∀ r ∈ rows', hasVarMod r = true → dev r ≤ 70000) ∧
    (∀ r ∈ rows2, hasVarFileOne r = true → dev2 r ≤ 1000000) := by
  obtain ⟨-, h2, h3, -⟩ := satHardV2_parts h
  refine ⟨?_, ?_, ?_, ?_, ?_⟩
  · intro d p hp q hq hcand
    simp only [understaffedOKV2, List.all_eq_true] at h2
    have h4 := h2 d (mem_days d) p hp q hq
    rw [hcand] at h4
    simp only [Bool.not_true, Bool.false_or, Bool.and_eq_true,
      decide_eq_true_eq] at h4
    exact h4.1
  · intro d
    simp only [minStaffOKV2, List.all_eq_true, Bool.and_eq_true,
      decide_eq_true_eq] at h3
    exact (h3 d (mem_days d)).1
  · intro d m
    unfold b2n
    cases u d m <;> simp
  · intro r hr hv
    have h1' := (satHardMod_parts h').1
    have h5 := (satHardMod_parts h').2.2.2.2
    simp only [hourDevOKMod, List.all_eq_true] at h5
    have h6 := h5 r hr
    rw [hv] at h6
    simp only [Bool.not_true, Bool.false_or, Bool.and_eq_true,
      decide_eq_true_eq] at h6
    have hday : ∀ d : Day, dayCountMod σ' r d ≤ 1 := by
      intro d
      simp only [oneShiftOKMod, List.all_eq_true] at h1'
      exact of_decide_eq_true (h1' r hr d (mem_days d))
    have htot := totalHoursScaledMod_le hday
    omega
  · intro r hr hv
    have h4 := (satHardFileOne_parts h2f).2.2.2
    simp only [hourDevOKFileOne, List.all_eq_true] at h4
    have h5 := h4 r hr
    rw [hv] at h5
    simp only [Bool.not_true, Bool.false_or, Bool.and_eq_true,
      decide_eq_true_eq] at h5
    exact h5.1

theorem c8_slack_bounds_amended_witness :
    usFohA Mon ShiftA FOH ≤ 1 ∧ msFohA Mon ≤ minStaffReq (dayDemand Mon) ∧
    b2n (uFalse Mon MornManager) ≤ 1 ∧ devMgr4 mgrAllWeek ≤ 70000 ∧
    devBoth bothAllWeek ≤ 1000000 := by
  have H := c8_slack_bounds_amended [fohMonRow] σFohA usFohA msFohA uFalse
    (by decide) [mgrAllWeek] σMgrMorn4 uMgr4 devMgr4 (by decide)
    [bothAllWeek] σCrewAll uTrue devBoth (by decide)
  exact ⟨H.1 Mon (ShiftA, [(FOH, 1)]) (by decide) (FOH, 1) (by decide)
      (by decide),
    H.2.1 Mon, H.2.2.1 Mon MornManager,
    H.2.2.2.1 mgrAllWeek (List.Mem.head _) (by decide),
    H.2.2.2.2 bothAllWeek (List.Mem.head _) (by decide)⟩
